import Mathlib

/-!
Verification of the rent-reasonableness classifier of `src/langproject.py`
(Tab 3, the "Validate Rent" button handler, lines 156-168).

The handler reads the selected `city`, looks up `avg = rent_data[city]`,
classifies `user_rent` with strict comparisons against `avg * 0.6` and
`avg * 1.5`, and builds a two-row comparison DataFrame
`{"Your Rent": user_rent, "Market Difference": abs(avg - user_rent)}`.

Numeric model: the Python code compares an integer `user_rent` (the
`st.number_input` at line 154 has integer bounds 1000..100000, so it yields
an `int`) against the double-precision products `avg * 0.6` and `avg * 1.5`.
All five configured averages are multiples of 5000, so both products are
exactly representable doubles equal to the rational values `avg * 3/5` and
`avg * 3/2`; Python compares ints and floats by exact value.  Hence rational
arithmetic (`ℚ`, with the exact literals `0.6 = 3/5` and `1.5 = 3/2`) is a
faithful model of the code on the configured table, and we embed all money
amounts as `ℚ`.
-/

/-- The three-way classification outcome of the rent validator. -/
inductive Verdict where
  | TooLow
  | TooHigh
  | Reasonable
deriving DecidableEq, Repr

/-- The data produced by one classification: the verdict, the average rent
used for the comparison (line 157 / line 174), and the labeled comparison
breakdown built at lines 165-168. -/
structure RentVerdict where
  verdict : Verdict
  averageRent : ℚ
  comparisonBreakdown : List (String × ℚ)
deriving DecidableEq, Repr

/-- The error raised by the Python dict lookup `rent_data[city]` (a
`KeyError`, the spec calls it `UnknownCityError`) when the city is not a key
of the table. -/
structure UnknownCityError where
  city : String
deriving DecidableEq, Repr

/-- The hard-coded market-rate table, lines 146-152 of the source, as an
association list in source order. -/
def rent_data : List (String × ℚ) :=
  [("Delhi", 18000), ("Mumbai", 25000), ("Bangalore", 20000),
   ("Hyderabad", 15000), ("Pune", 16000)]

/-- The city choices offered by the selectbox at line 144. -/
def cityOptions : List String :=
  ["Delhi", "Mumbai", "Bangalore", "Hyderabad", "Pune"]

/-- Python dict indexing `rent_data[city]`: `some` of the stored value when
the key is present, `none` (a `KeyError` in Python) otherwise. -/
def dictLookup (city : String) : Option ℚ :=
  (rent_data.find? (fun p => p.fst == city)).map Prod.snd

/-- The verdict branch of the handler, lines 158-163: strict `<` against
`avg * 0.6`, strict `>` against `avg * 1.5`, else Reasonable. -/
def verdictOf (avg user_rent : ℚ) : Verdict :=
  if user_rent < avg * 0.6 then Verdict.TooLow
  else if user_rent > avg * 1.5 then Verdict.TooHigh
  else Verdict.Reasonable

/-- Label of the first breakdown row, line 166. -/
def yourRentLabel : String := "Your Rent"

/-- Label of the second breakdown row, line 166. -/
def marketDiffLabel : String := "Market Difference"

/-- The comparison DataFrame built at lines 165-168:
`Category = ["Your Rent", "Market Difference"]`,
`Amount = [user_rent, abs(avg - user_rent)]`. -/
def breakdownOf (avg user_rent : ℚ) : List (String × ℚ) :=
  [(yourRentLabel, user_rent), (marketDiffLabel, abs (avg - user_rent))]

/-- The whole "Validate Rent" click handler, lines 156-168: look up the city
(raising `KeyError` for an absent key), classify, and build the breakdown. -/
def classify (city : String) (user_rent : ℚ) : Except UnknownCityError RentVerdict :=
  match dictLookup city with
  | none => Except.error ⟨city⟩
  | some avg => Except.ok ⟨verdictOf avg user_rent, avg, breakdownOf avg user_rent⟩

/-- Convenience names for the configured city strings. -/
def delhi : String := "Delhi"

def mumbai : String := "Mumbai"

def bangalore : String := "Bangalore"

def hyderabad : String := "Hyderabad"

def pune : String := "Pune"

def atlantis : String := "Atlantis"

deriving instance DecidableEq for Except

/-! ### Helper lemmas shared by the claim theorems -/

/-- Unfolding `classify` when the city is found in the table. -/
lemma classify_of_lookup (city : String) (avg : ℚ) (hc : dictLookup city = some avg)
    (r : ℚ) :
    classify city r = Except.ok ⟨verdictOf avg r, avg, breakdownOf avg r⟩ := by
  unfold classify
  rw [hc]

/-- The verdict component of `classify` when the city is found. -/
lemma classify_verdict (city : String) (avg : ℚ) (hc : dictLookup city = some avg)
    (r : ℚ) :
    (classify city r).map RentVerdict.verdict = Except.ok (verdictOf avg r) := by
  rw [classify_of_lookup city avg hc r]
  rfl

/-- Band case of the verdict branch: neither strict comparison fires. -/
lemma verdictOf_reasonable (avg r : ℚ) (hlo : avg * 0.6 ≤ r) (hhi : r ≤ avg * 1.5) :
    verdictOf avg r = Verdict.Reasonable := by
  unfold verdictOf
  rw [if_neg (not_lt.mpr hlo), if_neg (not_lt.mpr hhi)]

/-- Low case of the verdict branch. -/
lemma verdictOf_low (avg r : ℚ) (h : r < avg * 0.6) :
    verdictOf avg r = Verdict.TooLow := by
  unfold verdictOf
  rw [if_pos h]

/-- High case of the verdict branch, for a non-negative average (all
configured averages are positive). -/
lemma verdictOf_high (avg r : ℚ) (h0 : 0 ≤ avg) (h : avg * 1.5 < r) :
    verdictOf avg r = Verdict.TooHigh := by
  unfold verdictOf
  have h1 : ¬ r < avg * 0.6 := not_lt.mpr (le_trans (by nlinarith) (le_of_lt h))
  rw [if_neg h1, if_pos h]

/-- Every average stored in the configured table is positive. -/
lemma lookup_pos (city : String) (avg : ℚ) (hc : dictLookup city = some avg) :
    0 < avg := by
  unfold dictLookup at hc
  rcases Option.map_eq_some'.mp hc with ⟨p, hp, hsnd⟩
  have hmem := List.mem_of_find?_eq_some hp
  subst hsnd
  fin_cases hmem <;> norm_num

/-- Relative positions of the rent bounds 1000 and 100000 around a configured
average: used to show all three verdicts are reachable in range. -/
lemma reachable_of (city : String) (avg : ℚ) (hc : dictLookup city = some avg)
    (h1 : (1000 : ℚ) < avg * 0.6) (h2 : avg * 1.5 < 100000)
    (h3 : (1000 : ℚ) ≤ avg) (h4 : avg ≤ 100000) :
    ∃ a, dictLookup city = some a ∧
      (1000 : ℚ) ≤ a ∧ a ≤ 100000 ∧
      (classify city 1000).map RentVerdict.verdict = Except.ok Verdict.TooLow ∧
      (classify city 100000).map RentVerdict.verdict = Except.ok Verdict.TooHigh ∧
      (classify city a).map RentVerdict.verdict = Except.ok Verdict.Reasonable := by
  have h0 : (0 : ℚ) < avg := lookup_pos city avg hc
  refine ⟨avg, hc, h3, h4, ?_, ?_, ?_⟩
  · rw [classify_verdict city avg hc 1000, verdictOf_low avg 1000 h1]
  · rw [classify_verdict city avg hc 100000, verdictOf_high avg 100000 (le_of_lt h0) h2]
  · rw [classify_verdict city avg hc avg,
        verdictOf_reasonable avg avg (by nlinarith) (by nlinarith)]

/-! ### Claim theorems -/

/-- Claim C1: for every configured city with average `avg` and every rent `r`
in the inclusive band `avg * 0.6 ≤ r ≤ avg * 1.5`, the handler answers
Reasonable; in particular both exact boundary values are Reasonable, because
the comparisons at lines 158 and 160 are strict `<` and `>`. -/
theorem claim_C1_reasonable_band (city : String) (avg r : ℚ)
    (hc : dictLookup city = some avg)
    (hlo : avg * 0.6 ≤ r) (hhi : r ≤ avg * 1.5) :
    (classify city r).map RentVerdict.verdict = Except.ok Verdict.Reasonable := by
  rw [classify_verdict city avg hc r, verdictOf_reasonable avg r hlo hhi]

/-- Witness for C1 at both exact boundaries of Delhi: rents 10800 = 18000 * 0.6
and 27000 = 18000*1.5 both classify Reasonable. -/
theorem claim_C1_witness :
    dictLookup delhi = some 18000 ∧
    (18000 : ℚ) * 0.6 ≤ 10800 ∧ (10800 : ℚ) ≤ 18000 * 1.5 ∧
    (classify delhi 10800).map RentVerdict.verdict = Except.ok Verdict.Reasonable ∧
    (18000 : ℚ) * 0.6 ≤ 27000 ∧ (27000 : ℚ) ≤ 18000 * 1.5 ∧
    (classify delhi 27000).map RentVerdict.verdict = Except.ok Verdict.Reasonable :=
  ⟨rfl, by norm_num, by norm_num,
   claim_C1_reasonable_band delhi 18000 10800 rfl (by norm_num) (by norm_num),
   by norm_num, by norm_num,
   claim_C1_reasonable_band delhi 18000 27000 rfl (by norm_num) (by norm_num)⟩

/-- Claim C2: for every configured city with average `avg` and every rent
`r < avg * 0.6`, the handler answers TooLow (line 158). -/
theorem claim_C2_too_low (city : String) (avg r : ℚ)
    (hc : dictLookup city = some avg) (h : r < avg * 0.6) :
    (classify city r).map RentVerdict.verdict = Except.ok Verdict.TooLow := by
  rw [classify_verdict city avg hc r, verdictOf_low avg r h]

/-- Witness for C2: Hyderabad at rent 5000 < 15000 * 0.6 = 9000. -/
theorem claim_C2_witness :
    dictLookup hyderabad = some 15000 ∧
    (5000 : ℚ) < 15000 * 0.6 ∧
    (classify hyderabad 5000).map RentVerdict.verdict = Except.ok Verdict.TooLow :=
  ⟨rfl, by norm_num, claim_C2_too_low hyderabad 15000 5000 rfl (by norm_num)⟩

/-- Claim C3: for every configured city with average `avg` and every rent
`r > avg * 1.5`, the handler answers TooHigh (line 160). -/
theorem claim_C3_too_high (city : String) (avg r : ℚ)
    (hc : dictLookup city = some avg) (h : r > avg * 1.5) :
    (classify city r).map RentVerdict.verdict = Except.ok Verdict.TooHigh := by
  rw [classify_verdict city avg hc r,
      verdictOf_high avg r (le_of_lt (lookup_pos city avg hc)) h]

/-- Witness for C3: Mumbai at rent 40000 > 25000 * 1.5 = 37500. -/
theorem claim_C3_witness :
    dictLookup mumbai = some 25000 ∧
    (40000 : ℚ) > 25000 * 1.5 ∧
    (classify mumbai 40000).map RentVerdict.verdict = Except.ok Verdict.TooHigh :=
  ⟨rfl, by norm_num, claim_C3_too_high mumbai 25000 40000 rfl (by norm_num)⟩

/-- Claim C4: for every configured city and in-range rent, the comparison
breakdown (lines 165-168) is exactly the two labeled rows Your Rent = r and
Market Difference = abs (avg - r), and both amounts are non-negative. -/
theorem claim_C4_breakdown (city : String) (avg r : ℚ)
    (hc : dictLookup city = some avg) (hr : 1000 ≤ r) :
    ∃ rv, classify city r = Except.ok rv ∧
      rv.comparisonBreakdown = [(yourRentLabel, r), (marketDiffLabel, abs (avg - r))] ∧
      ∀ p ∈ rv.comparisonBreakdown, 0 ≤ p.snd := by
  refine ⟨_, classify_of_lookup city avg hc r, rfl, ?_⟩
  intro p hp
  simp only [breakdownOf, List.mem_cons, List.not_mem_nil, or_false] at hp
  rcases hp with rfl | rfl
  · exact le_trans (by norm_num) hr
  · exact abs_nonneg _

/-- Witness for C4: Bangalore at rent 12345. -/
theorem claim_C4_witness :
    dictLookup bangalore = some 20000 ∧ (1000 : ℚ) ≤ 12345 ∧
    ∃ rv, classify bangalore 12345 = Except.ok rv ∧
      rv.comparisonBreakdown =
        [(yourRentLabel, 12345), (marketDiffLabel, abs ((20000 : ℚ) - 12345))] ∧
      ∀ p ∈ rv.comparisonBreakdown, 0 ≤ p.snd :=
  ⟨rfl, by norm_num, claim_C4_breakdown bangalore 20000 12345 rfl (by norm_num)⟩

/-- Claim C5: a city that is not a key of the table makes the lookup at
line 157 fail (KeyError, the UnknownCityError of the spec), so no verdict is
produced: the result is the surfaced error, never a defaulted verdict. -/
theorem claim_C5_unknown_city (city : String) (r : ℚ)
    (hc : dictLookup city = none) :
    classify city r = Except.error ⟨city⟩ := by
  unfold classify
  rw [hc]

/-- Witness for C5: the spec scenario classify Atlantis 5000 errors. -/
theorem claim_C5_witness :
    dictLookup atlantis = none ∧
    classify atlantis 5000 = Except.error ⟨atlantis⟩ :=
  ⟨by decide, claim_C5_unknown_city atlantis 5000 (by decide)⟩

/-- Claim C6: for a city present in the table the handler is total: it
always succeeds and yields exactly one of the three verdicts, the other two
being excluded (the branches at lines 158-163 are mutually exclusive). -/
theorem claim_C6_exactly_one_verdict (city : String) (avg r : ℚ)
    (hc : dictLookup city = some avg) :
    ∃ rv, classify city r = Except.ok rv ∧
      ((rv.verdict = Verdict.TooLow ∧ rv.verdict ≠ Verdict.TooHigh ∧
          rv.verdict ≠ Verdict.Reasonable) ∨
       (rv.verdict ≠ Verdict.TooLow ∧ rv.verdict = Verdict.TooHigh ∧
          rv.verdict ≠ Verdict.Reasonable) ∨
       (rv.verdict ≠ Verdict.TooLow ∧ rv.verdict ≠ Verdict.TooHigh ∧
          rv.verdict = Verdict.Reasonable)) := by
  refine ⟨_, classify_of_lookup city avg hc r, ?_⟩
  have hv : RentVerdict.verdict ⟨verdictOf avg r, avg, breakdownOf avg r⟩ = verdictOf avg r := rfl
  rw [hv]
  cases verdictOf avg r <;> simp

/-- Witness for C6 at Pune with rent 20000. -/
theorem claim_C6_witness :
    dictLookup pune = some 16000 ∧
    ∃ rv, classify pune 20000 = Except.ok rv ∧
      ((rv.verdict = Verdict.TooLow ∧ rv.verdict ≠ Verdict.TooHigh ∧
          rv.verdict ≠ Verdict.Reasonable) ∨
       (rv.verdict ≠ Verdict.TooLow ∧ rv.verdict = Verdict.TooHigh ∧
          rv.verdict ≠ Verdict.Reasonable) ∨
       (rv.verdict ≠ Verdict.TooLow ∧ rv.verdict ≠ Verdict.TooHigh ∧
          rv.verdict = Verdict.Reasonable)) :=
  ⟨rfl, claim_C6_exactly_one_verdict pune 16000 20000 rfl⟩

/-- Claim C7: the averageRent reported by the handler is exactly the table
lookup for the queried city, and the constant table of lines 146-152 maps
Delhi to 18000, Mumbai to 25000, Bangalore to 20000, Hyderabad to 15000 and
Pune to 16000 (it is a constant of the model, hence never mutated). -/
theorem claim_C7_average_is_lookup (city : String) (avg r : ℚ)
    (hc : dictLookup city = some avg) :
    (∃ rv, classify city r = Except.ok rv ∧ rv.averageRent = avg) ∧
    dictLookup delhi = some 18000 ∧ dictLookup mumbai = some 25000 ∧
    dictLookup bangalore = some 20000 ∧ dictLookup hyderabad = some 15000 ∧
    dictLookup pune = some 16000 :=
  ⟨⟨_, classify_of_lookup city avg hc r, rfl⟩, rfl, rfl, rfl, rfl, rfl⟩

/-- Witness for C7 at Delhi with rent 20000. -/
theorem claim_C7_witness :
    dictLookup delhi = some 18000 ∧
    ((∃ rv, classify delhi 20000 = Except.ok rv ∧ rv.averageRent = 18000) ∧
     dictLookup delhi = some 18000 ∧ dictLookup mumbai = some 25000 ∧
     dictLookup bangalore = some 20000 ∧ dictLookup hyderabad = some 15000 ∧
     dictLookup pune = some 16000) :=
  ⟨rfl, claim_C7_average_is_lookup delhi 18000 20000 rfl⟩

/-- Claim C8: the concrete spec scenarios. Delhi at 10000 is TooLow, Delhi at
the exact boundary 10800 is Reasonable, and Pune at 16000 is Reasonable with
breakdown rows Your Rent = 16000 and Market Difference = 0. -/
theorem claim_C8_scenarios :
    (classify delhi 10000).map RentVerdict.verdict = Except.ok Verdict.TooLow ∧
    (classify delhi 10800).map RentVerdict.verdict = Except.ok Verdict.Reasonable ∧
    classify pune 16000 =
      Except.ok ⟨Verdict.Reasonable, 16000, [(yourRentLabel, 16000), (marketDiffLabel, 0)]⟩ := by
  refine ⟨?_, ?_, ?_⟩
  · rw [classify_verdict delhi 18000 rfl 10000, verdictOf_low 18000 10000 (by norm_num)]
  · rw [classify_verdict delhi 18000 rfl 10800,
        verdictOf_reasonable 18000 10800 (by norm_num) (by norm_num)]
  · rw [classify_of_lookup pune 16000 rfl 16000,
        verdictOf_reasonable 16000 16000 (by norm_num) (by norm_num)]
    simp [breakdownOf]

/-- Claim C9: the classification is deterministic: two calls with equal
(city, rent) inputs produce equal results; the embedding is a pure function
of its two inputs and the constant table, so nothing else can influence it. -/
theorem claim_C9_deterministic (c₁ c₂ : String) (r₁ r₂ : ℚ)
    (hcity : c₁ = c₂) (hrent : r₁ = r₂) :
    classify c₁ r₁ = classify c₂ r₂ := by
  rw [hcity, hrent]

/-- Witness for C9: two identical calls at Delhi with rent 9999 agree. -/
theorem claim_C9_witness :
    delhi = delhi ∧ (9999 : ℚ) = 9999 ∧
    classify delhi 9999 = classify delhi 9999 :=
  ⟨rfl, rfl, claim_C9_deterministic delhi delhi 9999 9999 rfl rfl⟩

/-- Claim C10: for every city offered by the selectbox, the minimum allowed
rent 1000 classifies TooLow and the maximum allowed rent 100000 classifies
TooHigh, and the average itself (in range) classifies Reasonable: all three
verdicts are reachable within the allowed input range for every city. -/
theorem claim_C10_all_verdicts_reachable (city : String) (hc : city ∈ cityOptions) :
    ∃ a, dictLookup city = some a ∧
      (1000 : ℚ) ≤ a ∧ a ≤ 100000 ∧
      (classify city 1000).map RentVerdict.verdict = Except.ok Verdict.TooLow ∧
      (classify city 100000).map RentVerdict.verdict = Except.ok Verdict.TooHigh ∧
      (classify city a).map RentVerdict.verdict = Except.ok Verdict.Reasonable := by
  fin_cases hc
  · exact reachable_of delhi 18000 rfl (by norm_num) (by norm_num) (by norm_num) (by norm_num)
  · exact reachable_of mumbai 25000 rfl (by norm_num) (by norm_num) (by norm_num) (by norm_num)
  · exact reachable_of bangalore 20000 rfl (by norm_num) (by norm_num) (by norm_num) (by norm_num)
  · exact reachable_of hyderabad 15000 rfl (by norm_num) (by norm_num) (by norm_num) (by norm_num)
  · exact reachable_of pune 16000 rfl (by norm_num) (by norm_num) (by norm_num) (by norm_num)

/-- Witness for C10 at Hyderabad, the city with the smallest average. -/
theorem claim_C10_witness :
    hyderabad ∈ cityOptions ∧
    ∃ a, dictLookup hyderabad = some a ∧
      (1000 : ℚ) ≤ a ∧ a ≤ 100000 ∧
      (classify hyderabad 1000).map RentVerdict.verdict = Except.ok Verdict.TooLow ∧
      (classify hyderabad 100000).map RentVerdict.verdict = Except.ok Verdict.TooHigh ∧
      (classify hyderabad a).map RentVerdict.verdict = Except.ok Verdict.Reasonable :=
  ⟨by decide, claim_C10_all_verdicts_reachable hyderabad (by decide)⟩
